import Mathlib

/-!
Shallow embedding of the miniftp I/O core (src/net/connection.rs,
src/server/server.rs, src/server/common.rs) and proofs about it.

Machine integers are modelled as `Nat`; epoll readiness flags are a `Nat`
bitmask carrying the Linux bit values; OS read results are scripted by a
function `Nat → ReadResult`, and the `while` loop of `Connection::read` is
given as fuel-indexed recursion returning `none` when the fuel runs out with
the loop still running.
-/

namespace MiniFtp

/-! ## Epoll readiness flags (src/net/connection.rs, `EventSet for EpollFlags`) -/

/-- Linux value of `EPOLLIN` (bit 0). -/
def EPOLLIN : Nat := 1
/-- Linux value of `EPOLLPRI` (bit 1). -/
def EPOLLPRI : Nat := 2
/-- Linux value of `EPOLLOUT` (bit 2). -/
def EPOLLOUT : Nat := 4
/-- Linux value of `EPOLLERR` (bit 3). -/
def EPOLLERR : Nat := 8
/-- Linux value of `EPOLLHUP` (bit 4). -/
def EPOLLHUP : Nat := 16

/-- `(*self & (EpollFlags::EPOLLIN | EpollFlags::EPOLLPRI)).bits() > 0` -/
def is_readable (f : Nat) : Bool := decide (0 < (f &&& (EPOLLIN ||| EPOLLPRI)))

/-- `(*self & EpollFlags::EPOLLOUT).bits() > 0` -/
def is_writeable (f : Nat) : Bool := decide (0 < (f &&& EPOLLOUT))

/-- `(*self & EpollFlags::EPOLLHUP).bits() > 0 && !((*self & EpollFlags::EPOLLIN).bits() > 0)` -/
def is_close (f : Nat) : Bool :=
  decide (0 < (f &&& EPOLLHUP)) && !(decide (0 < (f &&& EPOLLIN)))

/-- `(*self & EpollFlags::EPOLLERR).bits() > 0` -/
def is_error (f : Nat) : Bool := decide (0 < (f &&& EPOLLERR))

/-- `(*self & EpollFlags::EPOLLHUP).bits() > 0` -/
def is_hup (f : Nat) : Bool := decide (0 < (f &&& EPOLLHUP))

/-- Masking with a single bit is positive exactly when that bit is set. -/
theorem and_two_pow_pos (f k : Nat) : decide (0 < (f &&& 2 ^ k)) = f.testBit k := by
  rw [Nat.and_two_pow]
  cases h : f.testBit k <;> simp [h]

/-! ## Connection (src/net/connection.rs) -/

/-- `pub enum State` of `Connection`. -/
inductive State
  | Reading
  | Ready
  | Writing
  | Finished
  | Closed
deriving DecidableEq, Repr

/-- `pub struct Connection`; bytes are `Nat`, the fd an `Int`. -/
structure Connection where
  fd : Int
  state : State
  write_buf : List Nat
  read_buf : List Nat
deriving DecidableEq, Repr

/-- Outcome of one `nix::unistd::read(fd, &mut buf)` call with a 1024-byte
scratch buffer: `ok bs` is `Ok(bs.length)` with `bs` the bytes placed in the
buffer (so `bs.length ≤ 1024`, and `ok []` is `Ok(0)`); `eintr` and `eagain`
are `Err(Errno::EINTR)` and `Err(Errno::EAGAIN)`; `err` is any other errno. -/
inductive ReadResult
  | ok (bs : List Nat)
  | eintr
  | eagain
  | err
deriving DecidableEq, Repr

/-- One iteration of the `while` body of `Connection::read`, given the result
of this iteration's OS read. Returns the updated connection and whether the
body executed a `break`. The trailing 64 KiB guard
(`if self.write_buf.len() >= 64 * 1024`) runs unless the `Ok(n)` arm broke. -/
def readIter (c : Connection) (r : ReadResult) : Connection × Bool :=
  let step : Connection × Bool :=
    match r with
    | .ok bs =>
      if bs.length = 0 then ({ c with state := .Finished }, false)
      else
        let c1 : Connection :=
          { c with read_buf := c.read_buf ++ bs, state := .Reading }
        if bs.length ≠ 1024 then ({ c1 with state := .Finished }, true)
        else (c1, false)
    | .eintr => (c, false)
    | .eagain => (c, false)
    | .err => ({ c with state := .Closed }, false)
  if step.2 then step
  else if 64 * 1024 ≤ step.1.write_buf.length then
    ({ step.1 with state := .Reading }, true)
  else (step.1, false)

/-- The `while self.state != State::Finished && self.state != State::Closed`
loop of `Connection::read`, reading the i-th OS result from the script `os`.
`none` means the fuel was exhausted with the loop still running. -/
def readLoop (os : Nat → ReadResult) : Nat → Nat → Connection → Option Connection
  | 0, _, c =>
    if c.state = .Finished ∨ c.state = .Closed then some c else none
  | fuel + 1, i, c =>
    if c.state = .Finished ∨ c.state = .Closed then some c
    else
      let p := readIter c (os i)
      if p.2 then some p.1
      else readLoop os fuel (i + 1) p.1

/-- `Connection::write` — a TODO stub in the source, does nothing. -/
def write (c : Connection) : Connection := c

/-- `Connection::dispatch(revents)`: resets the state to `Ready`, reads when
readable, writes when writeable, then forces `Closed` on the error and close
conditions, returning `self.state` (paired here with the final connection).
`none` propagates read-loop fuel exhaustion. -/
def dispatch (os : Nat → ReadResult) (fuel : Nat) (c : Connection)
    (revents : Nat) : Option (State × Connection) :=
  let c0 : Connection := { c with state := .Ready }
  let rc : Option Connection :=
    if is_readable revents then readLoop os fuel 0 c0 else some c0
  match rc with
  | none => none
  | some c1 =>
    let c2 : Connection := if is_writeable revents then write c1 else c1
    let c3 : Connection := if is_error revents then { c2 with state := .Closed } else c2
    let c4 : Connection := if is_close revents then { c3 with state := .Closed } else c3
    some (c4.state, c4)

/-- `Connection::get_msg`: returns the accumulated inbound buffer and clears it. -/
def get_msg (c : Connection) : List Nat × Connection :=
  (c.read_buf, { c with read_buf := [] })

/-! ## Server (src/server/server.rs) -/

/-- `Token` of the event loop: `Listen` / `Notify` / `Timer`, each carrying a
file descriptor. -/
inductive Token
  | Listen (fd : Int)
  | Notify (fd : Int)
  | Timer (fd : Int)
deriving DecidableEq, Repr

/-- Key set of a `HashMap` insertion: adds the key if absent. -/
def hmInsert (k : Int) (l : List Int) : List Int :=
  if k ∈ l then l else k :: l

/-- The parts of `FtpServer` that `ready`/`notify` touch: the key set of
`sessions` (cmd fds), the key set of `conn_map`, the fds currently registered
with the reactor, the fds pushed onto the bounded task queue (in push order),
and the `max_clients` configuration value. -/
structure ServerState where
  sessions : List Int
  conn_map : List Int
  registered : List Int
  queue : List Int
  max_clients : Nat
deriving DecidableEq, Repr

/-- `FtpServer::ready`: on a `Listen` token, the freshly accepted connection
(`newFd`) is admitted — registered for read interest and inserted into
`sessions` — when `config.max_clients > sessions.len()`; otherwise it is shut
down. The returned flag records whether `conn.shutdown()` was called on the
new connection. Tokens other than `Listen` do nothing. -/
def ready (st : ServerState) (token : Token) (newFd : Int) :
    ServerState × Bool :=
  match token with
  | .Listen _ =>
    if st.sessions.length < st.max_clients then
      ({ st with registered := hmInsert newFd st.registered,
                 sessions := hmInsert newFd st.sessions }, false)
    else (st, true)
  | _ => (st, false)

/-- `FtpServer::notify`: on a `Notify` token the session for the fd is looked
up with `.unwrap()` — `none` models the panic when the fd is absent — and a
reference to it is pushed onto the request queue; the TODO teardown is absent.
On a `Timer` token the body only logs (the eviction sweep is commented out).
No map, registration or shutdown changes happen on any path. -/
def notify (st : ServerState) (token : Token) : Option ServerState :=
  match token with
  | .Notify fd =>
    if fd ∈ st.sessions then some { st with queue := st.queue ++ [fd] }
    else none
  | .Timer _ => some st
  | .Listen _ => some st

/-! ## Worker pool wiring (src/server/server.rs, `FtpServer::new`) -/

/-- Modelled from the spec: `ThreadPool` lives in
`src/threadpool/threadpool.rs`, which is not among the provided sources. Per
§4.5 it is a fixed-size set of threads; `new(n)` creates a pool of `n`
threads, `len()` returns that size, and any size — zero included — is a valid
configuration, not an error. -/
structure ThreadPool where
  size : Nat
deriving DecidableEq, Repr

/-- Modelled from the spec: `ThreadPool::new(n)` yields an `n`-thread pool. -/
def ThreadPool.new (n : Nat) : ThreadPool := ⟨n⟩

/-- Modelled from the spec: `ThreadPool::len()` is the pool size. -/
def ThreadPool.len (p : ThreadPool) : Nat := p.size

/-- One step of the worker-loop body spawned in `FtpServer::new`: pop one
session reference off the bounded queue (blocking `pop_front`, modelled as
`none` while empty), lock it, and run `handle_command` on it (opaque protocol
step, identified here by the session's fd). -/
def workerStep (queue : List Int) : Option (Int × List Int) :=
  match queue with
  | [] => none
  | fd :: rest => some (fd, rest)

/-- The construction-time facts of `FtpServer::new`: the bounded queue is
created with capacity 64, the pool with `ThreadPool::new(0)`, and
`for _ in 0..pool.len()` spawns one worker loop per pool thread. -/
structure FtpServerInit where
  queue_capacity : Nat
  pool : ThreadPool
  worker_loops : Nat
deriving DecidableEq, Repr

/-- `FtpServer::new` (the parts independent of the opaque collaborators). -/
def ftpServer_new : FtpServerInit :=
  let pool := ThreadPool.new 0
  { queue_capacity := 64, pool := pool, worker_loops := pool.len }

/-! ## Singleton guard (src/server/common.rs) and startup (run_server) -/

/-- Result of the `write(fd, pid_string)` call in `already_runing`. -/
inductive WriteResult
  | ok (n : Nat)
  | err
deriving DecidableEq, Repr

/-- `already_runing` from src/server/common.rs, as a function of the outcomes
of its two fallible OS calls: `flockOk` tells whether
`flock(fd, LockExclusiveNonblock)` succeeded (`.unwrap()` panics otherwise —
modelled as `none`), and `w` is the result of writing the pid string. The
match `Ok(0) | Err(_) => false, _ => true` returns `true` exactly when the
pid was written after the exclusive lock was acquired, i.e. when no other
instance was running. -/
def already_runing (flockOk : Bool) (w : WriteResult) : Option Bool :=
  if flockOk then
    match w with
    | .ok 0 => some false
    | .err => some false
    | .ok (_ + 1) => some true
  else none

/-- Outcome of the startup path `run_server`. -/
inductive StartupOutcome
  | aborted
  | proceeded
  | panicked
deriving DecidableEq, Repr

/-- `run_server`: returns early (abandoning startup) when `already_runing()`
is true, otherwise proceeds to bind, build the event loop and run. -/
def run_server (flockOk : Bool) (w : WriteResult) : StartupOutcome :=
  match already_runing flockOk w with
  | none => .panicked
  | some true => .aborted
  | some false => .proceeded

end MiniFtp

namespace MiniFtp

/-- Collapsing two successive state updates. -/
theorem withState_withState (c : Connection) (s s' : State) :
    ({ { c with state := s } with state := s' } : Connection)
      = { c with state := s' } := rfl

/-- An `eagain` iteration leaves the connection unchanged and does not break
while the 64 KiB guard is below threshold. -/
theorem readIter_eagain (c : Connection) (hw : c.write_buf.length < 65536) :
    readIter c .eagain = (c, false) := by
  simp [readIter]
  omega

/-- A fatal-error iteration sets `Closed` and does not break below the guard. -/
theorem readIter_err (c : Connection) (hw : c.write_buf.length < 65536) :
    readIter c .err = ({ c with state := .Closed }, false) := by
  simp [readIter]
  omega

/-- A full 1024-byte read appends the chunk, moves to `Reading` and lets the
loop continue (below the 64 KiB guard). -/
theorem readIter_ok_full (c : Connection) (bs : List Nat)
    (hl : bs.length = 1024) (hw : c.write_buf.length < 65536) :
    readIter c (.ok bs)
      = ({ c with read_buf := c.read_buf ++ bs, state := .Reading }, false) := by
  simp [readIter, hl]
  omega

/-- A short non-empty read appends the chunk, sets `Finished` and breaks. -/
theorem readIter_ok_short (c : Connection) (bs : List Nat)
    (h0 : 0 < bs.length) (hl : bs.length < 1024) :
    readIter c (.ok bs)
      = ({ c with read_buf := c.read_buf ++ bs, state := .Finished }, true) := by
  have hne : bs.length ≠ 0 := by omega
  have hne2 : bs.length ≠ 1024 := by omega
  simp [readIter, hne, hne2]

/-- A fatal-error iteration at or above the 64 KiB guard ends with the guard
overwriting `Closed` with `Reading` and breaking. -/
theorem readIter_err_big (c : Connection) (hw : 65536 ≤ c.write_buf.length) :
    readIter c .err = ({ c with state := .Reading }, true) := by
  simp [readIter]
  omega

end MiniFtp

/-- C8: on a socket whose reads perpetually return would-block (`EAGAIN`),
the read loop retries in place and never terminates (for every amount of fuel
it is still running), and a `dispatch` call with the readable flag set on such
a socket likewise never returns, as long as the 64 KiB outbound-buffer guard
does not trigger. -/
theorem read_loop_spins_on_eagain (fuel i : Nat) (c : MiniFtp.Connection)
    (h1 : c.state ≠ .Finished) (h2 : c.state ≠ .Closed)
    (hw : c.write_buf.length < 65536) :
    MiniFtp.readLoop (fun _ => .eagain) fuel i c = none
    ∧ MiniFtp.dispatch (fun _ => .eagain) fuel c MiniFtp.EPOLLIN = none := by
  have main : ∀ fuel i (c : MiniFtp.Connection), c.state ≠ .Finished →
      c.state ≠ .Closed → c.write_buf.length < 65536 →
      MiniFtp.readLoop (fun _ => .eagain) fuel i c = none := by
    intro fuel
    induction fuel with
    | zero =>
      intro i c h1 h2 _
      simp [MiniFtp.readLoop, h1, h2]
    | succ n ih =>
      intro i c h1 h2 hw
      rw [MiniFtp.readLoop,
        if_neg (show ¬(c.state = .Finished ∨ c.state = .Closed) by
          simp [h1, h2])]
      simp only [MiniFtp.readIter_eagain c hw]
      exact ih (i + 1) c h1 h2 hw
  refine ⟨main fuel i c h1 h2 hw, ?_⟩
  have hread : MiniFtp.is_readable MiniFtp.EPOLLIN = true := by decide
  have h0 : MiniFtp.readLoop (fun _ => .eagain) fuel 0
      { c with state := .Ready } = none := by
    apply main <;> simp [hw]
  simp [MiniFtp.dispatch, hread, h0]

/-- C8 witness: a concrete non-terminal connection with an empty outbound
buffer spins for fuel 5. -/
theorem read_loop_spins_on_eagain_witness :
    MiniFtp.readLoop (fun _ => .eagain) 5 0 ⟨1, .Ready, [], []⟩ = none
    ∧ MiniFtp.dispatch (fun _ => .eagain) 5 ⟨1, .Ready, [], []⟩ MiniFtp.EPOLLIN
      = none :=
  read_loop_spins_on_eagain 5 0 ⟨1, .Ready, [], []⟩
    (by decide) (by decide) (by decide)

/-- C5 counterexample: with a 64 KiB outbound buffer, a fatal read error does
stop the loop at once, but the trailing guard then overwrites `Closed` with
`Reading` before breaking, so the final state is not `Closed`. -/
theorem read_fatal_error_not_closed_with_big_write_buf :
    MiniFtp.readLoop (fun _ => .err) 1 0 ⟨3, .Ready, List.replicate 65536 0, []⟩
      = some ⟨3, .Reading, List.replicate 65536 0, []⟩
    ∧ MiniFtp.State.Reading ≠ MiniFtp.State.Closed := by
  constructor
  · have hlen : (65536 : Nat) ≤ (List.replicate 65536 (0 : Nat)).length := by
      rw [List.length_replicate]
    have h := MiniFtp.readIter_err_big ⟨3, .Ready, List.replicate 65536 0, []⟩ hlen
    rw [MiniFtp.readLoop, if_neg (by simp)]
    simp only [h, if_true]
  · decide

/-- C5 amended: if an OS read fails with any error other than interrupted or
would-block, the state becomes `Closed` and the loop stops immediately with no
further read attempt (the result does not depend on the remaining fuel or on
any later scripted read), provided the outbound buffer is below the 64 KiB
guard; at or above the guard the state is instead overwritten to `Reading`
before the loop breaks. -/
theorem read_fatal_error_closes (os : Nat → MiniFtp.ReadResult)
    (i fuel : Nat) (c : MiniFtp.Connection)
    (h1 : c.state ≠ .Finished) (h2 : c.state ≠ .Closed)
    (he : os i = .err) (hw : c.write_buf.length < 65536) :
    MiniFtp.readLoop os (fuel + 1) i c = some { c with state := .Closed } := by
  rw [MiniFtp.readLoop,
    if_neg (show ¬(c.state = .Finished ∨ c.state = .Closed) by simp [h1, h2])]
  simp only [he, MiniFtp.readIter_err c hw]
  cases fuel <;> simp [MiniFtp.readLoop]

/-- C5 amended witness: a fresh ready connection with an empty outbound buffer
whose first read errors fatally ends `Closed` in one iteration. -/
theorem read_fatal_error_closes_witness :
    MiniFtp.readLoop (fun _ => .err) 1 0 ⟨1, .Ready, [], [7]⟩
      = some ⟨1, .Closed, [], [7]⟩ :=
  read_fatal_error_closes (fun _ => .err) 0 0 ⟨1, .Ready, [], [7]⟩
    (by decide) (by decide) rfl (by decide)

/-- C4: starting a read cycle on a fresh, ready connection whose OS reads
return a full 1024-byte chunk and then a 200-byte chunk, the loop terminates
(for any extra fuel) with `read_buf` the concatenation of the two chunks —
1224 bytes — and state `Finished`; in general a full-scratch-size read leaves
the loop running (below the 64 KiB guard) and a shorter non-empty read ends
the iteration with state `Finished`. -/
theorem read_cycle_full_then_short (os : Nat → MiniFtp.ReadResult)
    (c : MiniFtp.Connection) (bs1 bs2 : List Nat)
    (h0 : os 0 = .ok bs1) (h1 : os 1 = .ok bs2)
    (hl1 : bs1.length = 1024) (hl2 : bs2.length = 200)
    (hs : c.state = .Ready) (hw : c.write_buf.length < 65536)
    (hr : c.read_buf = []) :
    (∀ fuel, MiniFtp.readLoop os (fuel + 2) 0 c
      = some { c with state := .Finished, read_buf := bs1 ++ bs2 })
    ∧ (bs1 ++ bs2).length = 1224
    ∧ (∀ (c' : MiniFtp.Connection) (bs : List Nat), bs.length = 1024 →
        c'.write_buf.length < 65536 → (MiniFtp.readIter c' (.ok bs)).2 = false)
    ∧ (∀ (c' : MiniFtp.Connection) (bs : List Nat), 0 < bs.length →
        bs.length < 1024 →
        MiniFtp.readIter c' (.ok bs)
          = ({ c' with read_buf := c'.read_buf ++ bs, state := .Finished },
              true)) := by
  refine ⟨?_, by simp [hl1, hl2], ?_, ?_⟩
  · intro fuel
    have e1 := MiniFtp.readIter_ok_full c bs1 hl1 hw
    rw [hr] at e1
    simp only [List.nil_append] at e1
    have e2 := MiniFtp.readIter_ok_short
      { c with read_buf := bs1, state := .Reading } bs2 (by omega) (by omega)
    rw [MiniFtp.readLoop, if_neg (by simp [hs])]
    simp only [h0, e1]
    rw [MiniFtp.readLoop]
    simp only [h1, e2, if_true]
    simp
  · intro c' bs hl hw'
    rw [MiniFtp.readIter_ok_full c' bs hl hw']
  · intro c' bs hb hl
    exact MiniFtp.readIter_ok_short c' bs hb hl

/-- C4 witness: with chunks `replicate 1024 7` and `replicate 200 9` the cycle
ends `Finished` holding all 1224 bytes. -/
theorem read_cycle_full_then_short_witness :
    MiniFtp.readLoop
        (fun i => if i = 0 then .ok (List.replicate 1024 7)
                  else .ok (List.replicate 200 9)) 2 0 ⟨1, .Ready, [], []⟩
      = some ⟨1, .Finished, [],
          List.replicate 1024 7 ++ List.replicate 200 9⟩
    ∧ (List.replicate 1024 (7 : Nat) ++ List.replicate 200 9).length = 1224 := by
  have h := read_cycle_full_then_short
    (fun i => if i = 0 then .ok (List.replicate 1024 7)
              else .ok (List.replicate 200 9))
    ⟨1, .Ready, [], []⟩ (List.replicate 1024 7) (List.replicate 200 9)
    rfl rfl (by rw [List.length_replicate]) (by rw [List.length_replicate])
    rfl (by simp) rfl
  exact ⟨h.1 0, h.2.1⟩

/-- C6: whenever `dispatch` returns, the returned value equals the resulting
connection state; an error or close condition in the flags forces that state
to `Closed` regardless of data read in the same call; the prior state is
irrelevant (it is first reset to `Ready`, so dispatching from any prior state
gives the same result); a read cycle runs exactly when the flags indicate
read-readiness (otherwise the buffers are untouched and, absent error/close
and readable flags, the state is the freshly reset `Ready`). -/
theorem dispatch_contract (os : Nat → MiniFtp.ReadResult) (fuel : Nat)
    (c : MiniFtp.Connection) (revents : Nat) (st : MiniFtp.State)
    (c' : MiniFtp.Connection)
    (h : MiniFtp.dispatch os fuel c revents = some (st, c')) :
    st = c'.state
    ∧ ((MiniFtp.is_error revents || MiniFtp.is_close revents) = true →
        st = .Closed)
    ∧ (∀ s, MiniFtp.dispatch os fuel { c with state := s } revents
        = some (st, c'))
    ∧ (MiniFtp.is_readable revents = false →
        c'.read_buf = c.read_buf ∧ c'.write_buf = c.write_buf
        ∧ ((MiniFtp.is_error revents || MiniFtp.is_close revents) = false →
            st = .Ready))
    ∧ (MiniFtp.is_readable revents = true →
        ∃ c2, MiniFtp.readLoop os fuel 0 { c with state := .Ready } = some c2
          ∧ c'.read_buf = c2.read_buf ∧ c'.write_buf = c2.write_buf
          ∧ ((MiniFtp.is_error revents || MiniFtp.is_close revents) = false →
              st = c2.state)) := by
  cases hre : MiniFtp.is_readable revents with
  | false =>
    cases herr : MiniFtp.is_error revents <;>
      cases hcl : MiniFtp.is_close revents <;>
      simp [MiniFtp.dispatch, MiniFtp.write, hre, herr, hcl] at h ⊢ <;>
      obtain ⟨h1, h2⟩ := h <;> subst h1 <;> simp [← h2]
  | true =>
    cases hrl : MiniFtp.readLoop os fuel 0 { c with state := .Ready } with
    | none => simp [MiniFtp.dispatch, hre, hrl] at h
    | some c2 =>
      cases herr : MiniFtp.is_error revents <;>
        cases hcl : MiniFtp.is_close revents <;>
        simp [MiniFtp.dispatch, MiniFtp.write, hre, herr, hcl, hrl] at h ⊢ <;>
        obtain ⟨h1, h2⟩ := h <;> subst h1 <;> simp [← h2]

/-- C6 witness: dispatching readable flags on a fresh connection whose single
read returns one short byte ends `Finished` with that byte buffered. -/
theorem dispatch_contract_witness :
    MiniFtp.dispatch (fun _ => .ok [3]) 1 ⟨1, .Ready, [], []⟩ MiniFtp.EPOLLIN
      = some (.Finished, ⟨1, .Finished, [], [3]⟩)
    ∧ (MiniFtp.State.Finished = (⟨1, .Finished, [], [3]⟩ : MiniFtp.Connection).state
    ∧ ((MiniFtp.is_error MiniFtp.EPOLLIN || MiniFtp.is_close MiniFtp.EPOLLIN) = true →
        MiniFtp.State.Finished = .Closed)
    ∧ (∀ s, MiniFtp.dispatch (fun _ => .ok [3]) 1
        { (⟨1, .Ready, [], []⟩ : MiniFtp.Connection) with state := s }
        MiniFtp.EPOLLIN = some (.Finished, ⟨1, .Finished, [], [3]⟩))
    ∧ (MiniFtp.is_readable MiniFtp.EPOLLIN = false →
        (⟨1, .Finished, [], [3]⟩ : MiniFtp.Connection).read_buf
          = (⟨1, .Ready, [], []⟩ : MiniFtp.Connection).read_buf
        ∧ (⟨1, .Finished, [], [3]⟩ : MiniFtp.Connection).write_buf
          = (⟨1, .Ready, [], []⟩ : MiniFtp.Connection).write_buf
        ∧ ((MiniFtp.is_error MiniFtp.EPOLLIN || MiniFtp.is_close MiniFtp.EPOLLIN) = false →
            MiniFtp.State.Finished = .Ready))
    ∧ (MiniFtp.is_readable MiniFtp.EPOLLIN = true →
        ∃ c2, MiniFtp.readLoop (fun _ => .ok [3]) 1 0
            { (⟨1, .Ready, [], []⟩ : MiniFtp.Connection) with state := .Ready }
            = some c2
          ∧ (⟨1, .Finished, [], [3]⟩ : MiniFtp.Connection).read_buf = c2.read_buf
          ∧ (⟨1, .Finished, [], [3]⟩ : MiniFtp.Connection).write_buf = c2.write_buf
          ∧ ((MiniFtp.is_error MiniFtp.EPOLLIN || MiniFtp.is_close MiniFtp.EPOLLIN) = false →
              MiniFtp.State.Finished = c2.state))) :=
  ⟨by decide, dispatch_contract (fun _ => .ok [3]) 1 ⟨1, .Ready, [], []⟩
    MiniFtp.EPOLLIN .Finished ⟨1, .Finished, [], [3]⟩ (by decide)⟩

/-- C3: for every readiness bitmask, `is_close` holds iff the hangup bit
(`EPOLLHUP`, bit 4) is set and the readable-data bit (`EPOLLIN`, bit 0) is not,
and `is_hup` holds iff the hangup bit is set, irrespective of the data bits
(in particular of the priority-data bit `EPOLLPRI`, bit 1). -/
theorem is_close_is_hup_truth_table (f : Nat) :
    MiniFtp.is_close f = (f.testBit 4 && !(f.testBit 0)) ∧
    MiniFtp.is_hup f = f.testBit 4 := by
  constructor
  · show (decide (0 < (f &&& 2 ^ 4)) && !(decide (0 < (f &&& 2 ^ 0)))) = _
    rw [MiniFtp.and_two_pow_pos, MiniFtp.and_two_pow_pos]
  · show decide (0 < (f &&& 2 ^ 4)) = _
    rw [MiniFtp.and_two_pow_pos]

namespace MiniFtp

/-- The inserted key is a member of a `hmInsert` result. -/
theorem mem_hmInsert_self (k : Int) (l : List Int) : k ∈ hmInsert k l := by
  unfold hmInsert
  split
  · assumption
  · exact List.mem_cons_self k l

end MiniFtp

/-- C7: an accept event arriving when `sessions.len()` already equals
`max_clients` shuts the new connection down and leaves the server state —
sessions, conn_map, registrations, queue — untouched (not inserted, never
registered); below the ceiling the connection is not shut down, is registered
for read interest, and a session keyed by its fd is inserted. -/
theorem admission_control (st : MiniFtp.ServerState) (lfd newFd : Int) :
    (st.sessions.length = st.max_clients →
      MiniFtp.ready st (.Listen lfd) newFd = (st, true))
    ∧ (st.sessions.length < st.max_clients →
      (MiniFtp.ready st (.Listen lfd) newFd).2 = false
      ∧ newFd ∈ (MiniFtp.ready st (.Listen lfd) newFd).1.sessions
      ∧ newFd ∈ (MiniFtp.ready st (.Listen lfd) newFd).1.registered) := by
  constructor
  · intro h
    rw [MiniFtp.ready, if_neg (by omega)]
  · intro h
    rw [MiniFtp.ready, if_pos h]
    exact ⟨rfl, MiniFtp.mem_hmInsert_self newFd st.sessions,
      MiniFtp.mem_hmInsert_self newFd st.registered⟩

/-- C7 witness: with `max_clients = 2`, a server holding sessions for fds 10
and 11 rejects and shuts down fd 12, while a server holding only fd 10 admits
and registers fd 12. -/
theorem admission_control_witness :
    MiniFtp.ready ⟨[10, 11], [], [10, 11], [], 2⟩ (.Listen 4) 12
      = (⟨[10, 11], [], [10, 11], [], 2⟩, true)
    ∧ ((MiniFtp.ready ⟨[10], [], [10], [], 2⟩ (.Listen 4) 12).2 = false
      ∧ 12 ∈ (MiniFtp.ready ⟨[10], [], [10], [], 2⟩ (.Listen 4) 12).1.sessions
      ∧ 12 ∈ (MiniFtp.ready ⟨[10], [], [10], [], 2⟩
          (.Listen 4) 12).1.registered) :=
  ⟨(admission_control ⟨[10, 11], [], [10, 11], [], 2⟩ 4 12).1 (by decide),
    (admission_control ⟨[10], [], [10], [], 2⟩ 4 12).2 (by decide)⟩

/-- C10: a `Notify(fd)` event for an fd with no entry in `sessions` panics
(the `.unwrap()` on the lookup, modelled as `none`) instead of being ignored
or converted into a state transition or log event. -/
theorem notify_unknown_fd_panics (st : MiniFtp.ServerState) (fd : Int)
    (h : fd ∉ st.sessions) :
    MiniFtp.notify st (.Notify fd) = none := by
  simp [MiniFtp.notify, h]

/-- C10 witness: notifying fd 5 on a server with no sessions panics. -/
theorem notify_unknown_fd_panics_witness :
    MiniFtp.notify ⟨[], [], [], [], 10⟩ (.Notify 5) = none :=
  notify_unknown_fd_panics ⟨[], [], [], [], 10⟩ 5 (by decide)

/-- C1 (divergence witness): for a server holding session fd 5 (with its
conn_map entry and reactor registration), a `Notify(5)` event only pushes the
session onto the request queue — `sessions`, `conn_map` and the registration
survive — and a `Timer` tick changes nothing at all: the teardown the claim
describes never happens in the source (both sites are TODO stubs). -/
theorem no_teardown_in_notify_or_timer :
    MiniFtp.notify ⟨[5], [5], [5], [], 10⟩ (.Notify 5)
      = some ⟨[5], [5], [5], [5], 10⟩
    ∧ MiniFtp.notify ⟨[5], [5], [5], [], 10⟩ (.Timer 7)
      = some ⟨[5], [5], [5], [], 10⟩ := by
  constructor
  · rfl
  · rfl

/-- C9: the pool size is a constructor parameter (`ThreadPool::new(n)` has
`len() = n` for every `n`); `FtpServer::new` constructs its pool with
`ThreadPool::new(0)` and spawns one worker loop per pool thread — hence zero
worker loops — alongside a 64-slot bounded queue, and this zero-size
configuration constructs successfully; each worker-loop iteration pops one
session reference off the queue front for the protocol-handling step. -/
theorem worker_pool_config :
    (∀ n, (MiniFtp.ThreadPool.new n).len = n)
    ∧ MiniFtp.ftpServer_new.pool = MiniFtp.ThreadPool.new 0
    ∧ MiniFtp.ftpServer_new.worker_loops = 0
    ∧ MiniFtp.ftpServer_new.queue_capacity = 64
    ∧ MiniFtp.workerStep [] = none
    ∧ (∀ fd rest, MiniFtp.workerStep (fd :: rest) = some (fd, rest)) :=
  ⟨fun _ => rfl, rfl, rfl, rfl, rfl, fun _ _ => rfl⟩

/-- C2 (divergence witness): on a fresh start — the exclusive lock acquired
and the pid string (some positive byte count) written — `already_runing`
returns `true` and `run_server` abandons startup; it proceeds to bind and run
only when writing the pid fails or writes zero bytes, and it panics (the
`flock(...).unwrap()`) precisely when another instance holds the lock. -/
theorem run_server_aborts_on_fresh_start :
    MiniFtp.already_runing true (.ok 5) = some true
    ∧ MiniFtp.run_server true (.ok 5) = .aborted
    ∧ MiniFtp.run_server true (.ok 0) = .proceeded
    ∧ MiniFtp.run_server true .err = .proceeded
    ∧ MiniFtp.run_server false (.ok 5) = .panicked := by
  refine ⟨rfl, rfl, rfl, rfl, rfl⟩
